import Mathlib

/-!
Shallow embedding of the pedestrian_cam repository (RPi_26.01) and proofs
about its rule engine, durable store, rate limiter, backoff loop, GPIO
pulse controller and health sweep.

Time values coming from Python `time.time()` are modelled as `Int`
(epoch seconds) in the store/limiter modules and as `ℚ` in the
window/GPIO modules, where sub-second constants (0.3 s debounce,
pulse_ms / 1000.0) occur.
-/

namespace PedCam

/-! ## log_rate_limit.py — `LogRateLimiter`

`_last_log_time` is an `OrderedDict` (front = oldest, `move_to_end`
puts the key last); it is modelled as an association list in that
order.  `_suppressed_counts` is a plain dict defaulting to 0, modelled
as a total function (`pop` becomes "read then reset to 0", which is
observationally identical). -/

structure RLState where
  lastLogTime : List (String × Int)
  suppressed : String → Nat
  maxKeys : Nat

/-- `self._last_log_time.get(key, 0)`. -/
def lookupTime (l : List (String × Int)) (key : String) : Int :=
  match l.find? (fun p => p.1 == key) with
  | some p => p.2
  | none => 0

/-- `LogRateLimiter.__init__` (`max_keys=1000` is the Python default). -/
def rlInit (maxKeys : Nat) : RLState :=
  { lastLogTime := [], suppressed := fun _ => 0, maxKeys := maxKeys }

/-- `LogRateLimiter.should_log(key, interval_sec)`; `now` is `time.time()`.
Returns `((allowed, suppressed_count), new state)`. -/
def shouldLog (s : RLState) (key : String) (intervalSec now : Int) :
    (Bool × Nat) × RLState :=
  let lastTime := lookupTime s.lastLogTime key
  if now - lastTime < intervalSec then
    ((false, 0),
     { s with suppressed := fun k => if k = key then s.suppressed key + 1 else s.suppressed k })
  else
    let sup := s.suppressed key
    let moved := s.lastLogTime.filter (fun p => p.1 != key) ++ [(key, now)]
    let trimmed := if s.maxKeys < moved.length then moved.drop 1 else moved
    ((true, sup),
     { lastLogTime := trimmed,
       suppressed := fun k => if k = key then 0 else s.suppressed k,
       maxKeys := s.maxKeys })

/-- Run a list of calls `(key, interval_sec, now)` through the limiter,
collecting `(key, allowed, suppressed_count)` results. -/
def runCalls (s : RLState) : List (String × Int × Int) → List (String × Bool × Nat) × RLState
  | [] => ([], s)
  | c :: rest =>
    let r := shouldLog s c.1 c.2.1 c.2.2
    let rr := runCalls r.2 rest
    ((c.1, r.1.1, r.1.2) :: rr.1, rr.2)

/-- One result's contribution to the since-last-allowed suppression count. -/
def tallyStep (key : String) (acc : Nat) (r : String × Bool × Nat) : Nat :=
  if r.1 = key then (if r.2.1 then 0 else acc + 1) else acc

/-- Number of results for `key` that were suppressed (`allowed = false`)
since the last allowed result for `key` (0 if `key` was just allowed). -/
def suppressedTally (key : String) (results : List (String × Bool × Nat)) : Nat :=
  results.foldl (tallyStep key) 0

/-! ## db_module.py — durable event store

Event dicts are modelled as a record of the fields `insert_event`
reads.  `area_id` is carried already parsed (`int(area_id_raw)`;
a parse failure or missing field is `none`).  `payload_json`
(`json.dumps` of the whole dict) is not separately stored: the rows
keep the fields the claims talk about. -/

structure EventData where
  type : String
  cameraKey : String
  areaId : Option Int
  count : Option Int
  prevValue : Option Int
  delta : Option Int
  message : String
  ts : Option String
  tsEpoch : Option Int
  deriving DecidableEq, Repr

/-- Row of the `people_delta_events` table. -/
structure DeltaRow where
  tsEpoch : Int
  cameraKey : String
  areaId : Int
  delta : Int
  deriving DecidableEq, Repr

/-- Row of the `event_logs` table. -/
structure LogRow where
  tsEpoch : Int
  cameraKey : String
  eventType : String
  areaId : Option Int
  message : String
  deriving DecidableEq, Repr

/-- Row of the legacy `events` table (only `ts_epoch` matters to the
claims; `insert_event` never writes this table, `purge_old_events`
deletes from it). -/
structure LegacyRow where
  tsEpoch : Int
  deriving DecidableEq, Repr

structure DB where
  events : List LegacyRow
  peopleDeltaEvents : List DeltaRow
  eventLogs : List LogRow
  deriving DecidableEq, Repr

/-- `insert_event(event_data)`.  `parseTs` stands for
`datetime.strptime(ts_input, "%Y-%m-%d %H:%M:%S")` (returns `none` on
`ValueError`); `now` is `int(time.time())`. -/
def insert_event (parseTs : String → Option Int) (now : Int) (db : DB)
    (ev : EventData) : DB :=
  if ev.type = "DEBUG" then db
  else
    let tsEpoch :=
      match ev.tsEpoch with
      | some e => e
      | none =>
        match ev.ts with
        | some tsInput =>
          match parseTs tsInput with
          | some e => e
          | none => now
        | none => now
    if ev.type = "PEOPLE_COUNT" then
      match ev.areaId with
      | none => db
      | some aid =>
        let delta :=
          match ev.delta with
          | some d => some d
          | none =>
            match ev.prevValue, ev.count with
            | some prev, some curr => some (curr - prev)
            | _, _ => none
        match delta with
        | some d =>
          if 0 < d then
            { db with peopleDeltaEvents :=
                db.peopleDeltaEvents ++ [⟨tsEpoch, ev.cameraKey, aid, d⟩] }
          else db
        | none => db
    else
      { db with eventLogs :=
          db.eventLogs ++ [⟨tsEpoch, ev.cameraKey, ev.type, ev.areaId, ev.message⟩] }

/-- `purge_old_events(retention_days)`; `now` is `int(time.time())`.
Returns the surviving tables and the summed `rowcount`. -/
def purge_old_events (now retentionDays : Int) (db : DB) : DB × Nat :=
  let cutoffEpoch := now - retentionDays * 24 * 3600
  let keptDelta := db.peopleDeltaEvents.filter (fun r => !decide (r.tsEpoch < cutoffEpoch))
  let keptLogs := db.eventLogs.filter (fun r => !decide (r.tsEpoch < cutoffEpoch))
  let keptEvents := db.events.filter (fun r => !decide (r.tsEpoch < cutoffEpoch))
  let deletedCount :=
    (db.peopleDeltaEvents.length - keptDelta.length)
      + (db.eventLogs.length - keptLogs.length)
      + (db.events.length - keptEvents.length)
  ({ events := keptEvents, peopleDeltaEvents := keptDelta, eventLogs := keptLogs },
   deletedCount)

/-- `enqueue_event(event_data)`: `dbRunning` is the module flag
`_db_running`, `q` the pending FIFO `_db_queue`.  When the worker runs,
the event is queued (unbounded `queue.Queue`, the put never waits);
otherwise the write happens synchronously in the caller. -/
def enqueue_event (dbRunning : Bool) (parseTs : String → Option Int) (now : Int)
    (q : List EventData) (db : DB) (ev : EventData) : List EventData × DB :=
  if dbRunning then (q ++ [ev], db)
  else (q, insert_event parseTs now db ev)

/-! ## cgi_client.py — `_BaseCgiThread.run` reconnect/backoff loop

One iteration of the `while not self._stop_event.is_set()` loop is
classified by how the connection attempt went:

* `readTimeout` — the iteration raised `requests.exceptions.ReadTimeout`
  (`continue`: no sleep, backoff untouched);
* `connected reads endedByReadTimeout` — HTTP 200 (`backoff = 1` runs
  immediately), then `_consume_stream` accepted `reads` reads; if the
  stream ended by a `ReadTimeout` the iteration also `continue`s,
  otherwise it falls through to the sleep;
* `httpError` — non-200 status, falls through to the sleep;
* `exn` — any other exception, falls through to the sleep.

`stepBackoff b o` returns the sleeps performed by the iteration and the
backoff value afterwards (`time.sleep(backoff); backoff = min(backoff * 2, 30)`). -/

inductive CgiOutcome where
  | readTimeout
  | connected (reads : Nat) (endedByReadTimeout : Bool)
  | httpError (code : Nat)
  | exn
  deriving DecidableEq, Repr

def stepBackoff : Nat → CgiOutcome → List Nat × Nat
  | b, .readTimeout => ([], b)
  | _, .connected _ true => ([], 1)
  | _, .connected _ false => ([1], min (1 * 2) 30)
  | b, .httpError _ => ([b], min (b * 2) 30)
  | b, .exn => ([b], min (b * 2) 30)

/-- The sleep delays `run` performs over a sequence of iteration
outcomes, starting from backoff `b` (`backoff = 1` at thread start). -/
def cgiDelays (b : Nat) : List CgiOutcome → List Nat
  | [] => []
  | o :: rest =>
    let r := stepBackoff b o
    r.1 ++ cgiDelays r.2 rest

/-- Modelled from the spec claim (C4), for refinement comparison only:
"success" that resets the backoff is HTTP 200 *plus at least one
accepted read"; a 200 with no accepted read counts as a failure. -/
def specStepBackoff : Nat → CgiOutcome → List Nat × Nat
  | b, .readTimeout => ([], b)
  | b, .connected reads endedByReadTimeout =>
    if 1 ≤ reads then
      (if endedByReadTimeout then ([], 1) else ([1], min (1 * 2) 30))
    else
      (if endedByReadTimeout then ([], b) else ([b], min (b * 2) 30))
  | b, .httpError _ => ([b], min (b * 2) 30)
  | b, .exn => ([b], min (b * 2) 30)

/-- Delay trace of the spec-claimed backoff policy. -/
def specCgiDelays (b : Nat) : List CgiOutcome → List Nat
  | [] => []
  | o :: rest =>
    let r := specStepBackoff b o
    r.1 ++ specCgiDelays r.2 rest

/-! ## window_main.py — `_handle_people_count`

The rule-engine state owned by `MainWindow` that this handler reads or
writes.  Python dicts become total functions (`.get(key, default)`);
`area_id` keys keep their `Option Int` shape because the handler uses
the raw `event_data.get('area_id')` as a dict key. -/

structure PCEnv where
  /-- `self._closing`. -/
  closing : Bool
  /-- `self.ui.chk_show_debug.isChecked()`. -/
  showDebug : Bool
  /-- `self.event_cooldown_sec`. -/
  eventCooldownSec : ℚ
  /-- `self.is_area_checked` → `state_mgr.get_area_enabled`. -/
  areaChecked : String → Option Int → Bool
  /-- `self._get_camera_ip`. -/
  cameraIp : String → String

structure PCState where
  /-- `self._last_people_total[cam][area]` (`none` = absent). -/
  lastPeopleTotal : String → Option Int → Option Int
  /-- `self.realtime_counts[cam][area]`. -/
  realtimeCounts : String → Option Int → Option Int
  /-- `self.last_event_timestamps.get((cam, area), 0)`. -/
  lastEventTimestamps : String → Option Int → ℚ
  /-- `self.gpio_last_trigger_ts.get((cam, area, kind), 0)`. -/
  gpioLastTriggerTs : String → Option Int → String → ℚ
  totalEvents : Nat
  uiDirty : Bool

/-- Outward effects of one `_handle_people_count` call. -/
structure PCEffects where
  /-- `db_module.enqueue_event(...)` calls, in order. -/
  enqueued : List EventData
  /-- `self.add_event_log(...)` lines. -/
  eventLog : List String
  /-- `self.add_gpio_log(...)` lines. -/
  gpioLog : List String
  /-- `self.gpio_bridge.trigger_pulse(int(area_id))` calls (pre-`int`). -/
  gpioTriggers : List (Option Int)
  deriving DecidableEq, Repr

def noPCEffects : PCEffects :=
  { enqueued := [], eventLog := [], gpioLog := [], gpioTriggers := [] }

def fmtArea : Option Int → String
  | some n => toString n
  | none => "None"

/-- `self._check_gpio_debounce(cam_key, area_id, event_type, debounce_sec)`:
returns the boolean and the (possibly updated) state. -/
def check_gpio_debounce (s : PCState) (camKey : String) (areaId : Option Int)
    (kind : String) (debounceSec now : ℚ) : Bool × PCState :=
  if now - s.gpioLastTriggerTs camKey areaId kind < debounceSec then (false, s)
  else
    (true,
     { s with gpioLastTriggerTs := fun ck a t =>
         if ck = camKey ∧ a = areaId ∧ t = kind then now
         else s.gpioLastTriggerTs ck a t })

/-- Pointwise update of a `(camera_key, area_id)` keyed dict. -/
def setPT (f : String → Option Int → Option Int) (camKey : String)
    (areaId : Option Int) (v : Option Int) : String → Option Int → Option Int :=
  fun ck a => if ck = camKey ∧ a = areaId then v else f ck a

/-- `MainWindow._handle_people_count(event_data)`.  `now` is
`time.time()` (the handler reads the clock for the UI-log cooldown and
the GPIO debounce; both reads are modelled by the same instant). -/
def handle_people_count (env : PCEnv) (s : PCState) (ev : EventData) (now : ℚ) :
    PCState × PCEffects :=
  let camKey := ev.cameraKey
  let areaId := ev.areaId
  match ev.count with
  | none => (s, noPCEffects)
  | some c =>
    if c < 0 then (s, noPCEffects)
    else
      let lastTotal := s.lastPeopleTotal camKey areaId
      let s0 := { s with realtimeCounts := setPT s.realtimeCounts camKey areaId (some c),
                         uiDirty := true }
      match lastTotal with
      | none =>
        let s1 := { s0 with lastPeopleTotal := setPT s0.lastPeopleTotal camKey areaId (some c) }
        (s1,
         { noPCEffects with eventLog :=
             if env.showDebug then
               [s!"[DEBUG] [{camKey}] Area {fmtArea areaId} People Init ({c}) - Not saved to DB"]
             else [] })
      | some lastTotalVal =>
        let delta := c - lastTotalVal
        let ev' := { ev with
          prevValue := some lastTotalVal
          count := some c
          delta := some delta
          message :=
            if 0 < delta then s!"[{camKey}] Area {fmtArea areaId} People +{delta} ({c})"
            else s!"[{camKey}] Area {fmtArea areaId} People {delta} ({c})" }
        let enq := if delta ≠ 0 then [ev'] else []
        let emitOk := 0 < delta ∧ env.eventCooldownSec ≤ now - s0.lastEventTimestamps camKey areaId
        let s1 :=
          if emitOk then
            { s0 with
              lastEventTimestamps := (fun ck a =>
                if ck = camKey ∧ a = areaId then now else s0.lastEventTimestamps ck a),
              totalEvents := s0.totalEvents + 1 }
          else s0
        let uiLog :=
          if emitOk then
            [ev'.message]
              ++ (if env.showDebug then
                    [s!"[DEBUG] PEOPLE {camKey} A{fmtArea areaId} raw={c} prev={lastTotalVal} delta={delta}"]
                  else [])
          else []
        if 0 < delta then
          if env.closing then
            (s1, { noPCEffects with enqueued := enq, eventLog := uiLog })
          else
            let checked := env.areaChecked camKey areaId
            let gpioStep :=
              if checked = false then
                let r := check_gpio_debounce s1 camKey areaId "people" (3 / 10) now
                if r.1 then
                  (r.2,
                   [s!"{env.cameraIp camKey} / Area{fmtArea areaId} / Δ{delta} / now={c}"],
                   [areaId])
                else (r.2, [], [])
              else (s1, [], [])
            let s2 := gpioStep.1
            let s3 := { s2 with lastPeopleTotal := setPT s2.lastPeopleTotal camKey areaId (some c) }
            (s3, { enqueued := enq, eventLog := uiLog,
                   gpioLog := gpioStep.2.1, gpioTriggers := gpioStep.2.2 })
        else
          let s3 := { s1 with lastPeopleTotal := setPT s1.lastPeopleTotal camKey areaId (some c) }
          (s3, { noPCEffects with enqueued := enq, eventLog := uiLog })

/-- The rows a `_handle_people_count` call ends up persisting: its
`enqueue_event` payloads drained by `_db_writer_loop` → `insert_event`. -/
def peopleCountPersisted (parseTs : String → Option Int) (nowEpoch : Int)
    (db : DB) (effs : PCEffects) : DB :=
  effs.enqueued.foldl (insert_event parseTs nowEpoch) db

/-! ## window_main.py — `check_thread_health`, event-thread section

One device's pass through the `for key, threads in self.event_threads`
loop.  `threads.get("people")` / `threads.get("stay")` being truthy is
`hasPeople` / `hasStay`; `camera_conn_status.get(key, False)` keeps its
`Option Bool` shape; the rate-limited logs go through the shared
`LogRateLimiter`.  The `continue` hit when a restart is already
in-flight leaves the device pass entirely (it also skips the stay
check and the cooldown update). -/

structure HealthState where
  /-- `self._last_restart_time_event.get(key, 0)`. -/
  lastRestartTimeEvent : String → Int
  /-- `self.camera_conn_status` (`none` = key absent / unknown). -/
  cameraConnStatus : String → Option Bool
  /-- `self._pc_restart_inflight.get(key, False)`. -/
  pcRestartInflight : String → Bool
  /-- the global `log_rate_limit._limiter`. -/
  limiter : RLState

structure DeviceThreads where
  key : String
  hasPeople : Bool
  peopleRunning : Bool
  hasStay : Bool
  stayRunning : Bool

structure HealthEffects where
  /-- `restart()` calls as `(device key, "people" | "stay")`, in order. -/
  restarts : List (String × String)
  /-- `logger.info` lines. -/
  logs : List String
  deriving DecidableEq, Repr

/-- StayDetectionThread leg of the sweep plus the trailing
`if restarted: self._last_restart_time_event[key] = now`. -/
def health_stay_part (st : HealthState) (d : DeviceThreads) (now : Int)
    (logs : List String) (restarts : List (String × String)) (restarted : Bool) :
    HealthState × HealthEffects :=
  let afterStay :=
    if d.hasStay ∧ d.stayRunning = false then
      let r := shouldLog st.limiter ("health_restart_stay_" ++ d.key) 300 now
      let msg := s!"[Recovery] Restarting StayDetection thread for {d.key}"
        ++ (if 0 < r.1.2 then s!" (suppressed {r.1.2})" else "")
      ({ st with limiter := r.2 },
       logs ++ (if r.1.1 then [msg] else []),
       restarts ++ [(d.key, "stay")],
       true)
    else (st, logs, restarts, restarted)
  let st' := afterStay.1
  let st'' :=
    if afterStay.2.2.2 then
      { st' with lastRestartTimeEvent := fun k =>
          if k = d.key then now else st'.lastRestartTimeEvent k }
    else st'
  (st'', { restarts := afterStay.2.2.1, logs := afterStay.2.1 })

/-- One device's event-thread health pass (`check_thread_health`,
section "1. 이벤트 스레드 점검"). -/
def check_event_thread_health (st : HealthState) (d : DeviceThreads) (now : Int) :
    HealthState × HealthEffects :=
  if now - st.lastRestartTimeEvent d.key < 60 then
    (st, { restarts := [], logs := [] })
  else
    if d.hasPeople ∧ d.peopleRunning = false then
      if (st.cameraConnStatus d.key).getD false then
        if st.pcRestartInflight d.key then (st, { restarts := [], logs := [] })
        else
          let r := shouldLog st.limiter ("health_pc_recovery_" ++ d.key) 300 now
          let msg := s!"[Recovery] Restarting PeopleCount thread for {d.key} (reason=dead)"
            ++ (if 0 < r.1.2 then s!" (suppressed {r.1.2})" else "")
          health_stay_part { st with limiter := r.2 } d now
            (if r.1.1 then [msg] else []) [(d.key, "people")] true
      else
        let r := shouldLog st.limiter ("health_pc_skip_disconnected_" ++ d.key) 3600 now
        let msg := s!"[Recovery] Skipping PeopleCount restart for {d.key} (Camera disconnected)"
        health_stay_part { st with limiter := r.2 } d now
          (if r.1.1 then [msg] else []) [] false
    else
      health_stay_part st d now [] [] false

/-! ## gpio_bridge.py — `GpioBridge.trigger_pulse`

State protected by `self.lock`.  Only the pulse state machine is
modelled; the `should_log`-gated log strings do not feed back into the
pulse state and are left out.  `GpioAction` records the externally
visible GPIO calls. -/

structure GpioConf where
  /-- `conf['enable']`. -/
  enable : Bool
  /-- `conf['pulse_ms']`. -/
  pulseMs : ℚ
  /-- `conf.get('retrigger_policy', 'extend')`. -/
  retriggerPolicy : String

structure GpioState where
  /-- `self._pulse_end_time`. -/
  pulseEndTime : ℚ
  /-- `self._worker_thread is not None and self._worker_thread.is_alive()`. -/
  workerAlive : Bool
  /-- `self.is_connected`. -/
  isConnected : Bool
  /-- `HAS_GPIO`. -/
  hasGpio : Bool

inductive GpioAction where
  /-- `GPIO.output(pin, GPIO.HIGH)`. -/
  | outputHigh
  /-- a new `_pulse_worker` thread is started. -/
  | startWorker
  deriving DecidableEq, Repr

/-- `GpioBridge.trigger_pulse(area_id)`; `now` is `time.time()`. -/
def trigger_pulse (conf : GpioConf) (s : GpioState) (now : ℚ) :
    GpioState × List GpioAction :=
  if conf.enable = false then (s, [])
  else if s.hasGpio = false then (s, [])
  else if s.isConnected = false then (s, [])
  else
    let pulseSec := conf.pulseMs / 1000
    let newEndTime := now + pulseSec
    let isActive := now < s.pulseEndTime
    if isActive then
      if conf.retriggerPolicy = "ignore" then (s, [])
      else
        let workerActs := if s.workerAlive = false then [GpioAction.startWorker] else []
        ({ s with pulseEndTime := newEndTime, workerAlive := true }, workerActs)
    else
      let workerActs := if s.workerAlive = false then [GpioAction.startWorker] else []
      ({ s with pulseEndTime := newEndTime, workerAlive := true },
       GpioAction.outputHigh :: workerActs)

/-! ## Concrete fixtures used by counterexamples and witnesses -/

/-- A `strptime` stand-in that never parses (unused by the scenarios:
their events all carry `ts_epoch`). -/
def noParse : String → Option Int := fun _ => none

def db0 : DB := { events := [], peopleDeltaEvents := [], eventLogs := [] }

def env0 : PCEnv :=
  { closing := false, showDebug := false, eventCooldownSec := 2,
    areaChecked := fun _ _ => true, cameraIp := fun _ => "10.0.0.1" }

def envClosing : PCEnv := { env0 with closing := true }

def envDebug : PCEnv := { env0 with showDebug := true }

/-- Zone state with baseline 5 established for `("cam1", area 2)`. -/
def s5 : PCState :=
  { lastPeopleTotal := fun ck a => if ck = "cam1" ∧ a = some 2 then some 5 else none,
    realtimeCounts := fun _ _ => none,
    lastEventTimestamps := fun _ _ => 0,
    gpioLastTriggerTs := fun _ _ _ => 0,
    totalEvents := 0, uiDirty := false }

/-- Fresh state: no baseline anywhere. -/
def sFresh : PCState := { s5 with lastPeopleTotal := fun _ _ => none }

/-- A `PEOPLE_COUNT` reading for `("cam1", area 2)` carrying `count = c`. -/
def evCount (c : Int) : EventData :=
  { type := "PEOPLE_COUNT", cameraKey := "cam1", areaId := some 2, count := some c,
    prevValue := none, delta := none, message := "", ts := none,
    tsEpoch := some 1700000000 }

/-- Limiter state with an allowed call for `"k"` recorded at `t = 1000`. -/
def stW : RLState :=
  { lastLogTime := [("k", 1000)], suppressed := fun _ => 0, maxKeys := 1000 }

/-- Health state: connectivity unknown for every camera, no cooldown
or in-flight restart pending. -/
def hsUnknown : HealthState :=
  { lastRestartTimeEvent := fun _ => 0, cameraConnStatus := fun _ => none,
    pcRestartInflight := fun _ => false, limiter := rlInit 1000 }

/-- Device whose count-feed thread is healthy but whose alarm-feed
thread is dead. -/
def devStayDead : DeviceThreads :=
  { key := "cam1", hasPeople := true, peopleRunning := true,
    hasStay := true, stayRunning := false }

/-- Device whose count-feed thread is dead (alarm feed absent). -/
def devPeopleDead : DeviceThreads :=
  { key := "cam1", hasPeople := true, peopleRunning := false,
    hasStay := false, stayRunning := true }

/-- Health state with `cam1` probed reachable. -/
def hsConnected : HealthState :=
  { hsUnknown with cameraConnStatus := fun k => if k = "cam1" then some true else none }

/-- Three failures, then an HTTP 200 connection that accepts zero reads
before dying, then another failure. -/
def c4trace : List CgiOutcome :=
  [.exn, .exn, .exn, .connected 0 false, .exn]

def conf7 : GpioConf := { enable := true, pulseMs := 500, retriggerPolicy := "extend" }

def st7 : GpioState :=
  { pulseEndTime := 0, workerAlive := false, isConnected := true, hasGpio := true }

/-- A generic (stay-alarm) event with its epoch already normalized. -/
def evStay : EventData :=
  { type := "STAY_ALARM", cameraKey := "cam1", areaId := some 2, count := none,
    prevValue := none, delta := none, message := "stay msg", ts := none,
    tsEpoch := some 500 }

/-- A row sitting exactly at the purge cutoff for `now = 172800`,
`retention_days = 1`. -/
def logRowAtCutoff : LogRow := ⟨86400, "cam1", "X", none, "m"⟩

/-- Small store: one legacy row at 0, one delta row at 100, one log row
at the cutoff and one below it. -/
def db8 : DB :=
  { events := [⟨0⟩],
    peopleDeltaEvents := [⟨100, "cam1", 1, 2⟩],
    eventLogs := [logRowAtCutoff, ⟨10, "cam1", "Y", none, "m"⟩] }

/-- Limiter at capacity 2 holding keys `"a"` (allowed at 10, 3 calls
suppressed since) and `"b"` (allowed at 20). -/
def stEvict : RLState :=
  { lastLogTime := [("a", 10), ("b", 20)],
    suppressed := fun k => if k = "a" then 3 else 0,
    maxKeys := 2 }

/-! # Theorems -/

/-! ## LogRateLimiter helper lemmas -/

theorem shouldLog_suppressed_point (s : RLState) (key : String) (iv now : Int) (k : String) :
    ((shouldLog s key iv now).2).suppressed k
      = if k = key then (if (shouldLog s key iv now).1.1 then 0 else s.suppressed key + 1)
        else s.suppressed k := by
  unfold shouldLog
  by_cases h : now - lookupTime s.lastLogTime key < iv
  · simp [h]
  · simp [h]

theorem runCalls_suppressed (calls : List (String × Int × Int)) :
    ∀ (s : RLState) (key : String),
      ((runCalls s calls).2).suppressed key
        = (runCalls s calls).1.foldl (tallyStep key) (s.suppressed key) := by
  induction calls with
  | nil => intro s key; rfl
  | cons c rest ih =>
    intro s key
    simp only [runCalls]
    rw [List.foldl_cons, ih]
    congr 1
    rw [shouldLog_suppressed_point]
    by_cases hk : key = c.1
    · simp [tallyStep, hk]
    · simp [tallyStep, hk, Ne.symm hk]

/-- C5: for every key and interval `T`, the first `should_log` call for
the key returns `(true, 0)` (whenever the clock reads at least `T`, as
a real epoch clock always does); a call strictly within `T` of the
key's recorded last-allowed time returns `(false, 0)` and increments
the key's suppressed counter; a call at least `T` after it returns
`(true, k)` with `k` the stored suppressed counter — and along any call
trace from a fresh limiter that counter equals exactly the number of
calls for the key suppressed since the previous allowed call. -/
theorem C5_rate_limiter_contract :
    (∀ (m : Nat) (key : String) (T now : Int), T ≤ now →
        (shouldLog (rlInit m) key T now).1 = (true, 0)) ∧
    (∀ (s : RLState) (key : String) (T now : Int),
        now - lookupTime s.lastLogTime key < T →
        (shouldLog s key T now).1 = (false, 0) ∧
        (shouldLog s key T now).2.suppressed key = s.suppressed key + 1) ∧
    (∀ (s : RLState) (key : String) (T now : Int),
        T ≤ now - lookupTime s.lastLogTime key →
        (shouldLog s key T now).1 = (true, s.suppressed key)) ∧
    (∀ (calls : List (String × Int × Int)) (key : String),
        ((runCalls (rlInit 1000) calls).2).suppressed key
          = suppressedTally key (runCalls (rlInit 1000) calls).1) := by
  refine ⟨?_, ?_, ?_, ?_⟩
  · intro m key T now hT
    have hl : lookupTime (rlInit m).lastLogTime key = 0 := rfl
    unfold shouldLog
    rw [hl, if_neg (by omega)]
    rfl
  · intro s key T now h
    unfold shouldLog
    rw [if_pos h]
    exact ⟨rfl, by simp⟩
  · intro s key T now h
    unfold shouldLog
    rw [if_neg (by omega)]
  · intro calls key
    rw [runCalls_suppressed]
    rfl

theorem C5_rate_limiter_contract_witness :
    (shouldLog (rlInit 1000) "k" 60 1000).1 = (true, 0)
    ∧ (shouldLog stW "k" 60 1030).1 = (false, 0)
    ∧ (shouldLog stW "k" 60 1030).2.suppressed "k" = stW.suppressed "k" + 1
    ∧ (shouldLog stW "k" 60 1090).1 = (true, stW.suppressed "k") :=
  ⟨C5_rate_limiter_contract.1 1000 "k" 60 1000 (by decide),
   (C5_rate_limiter_contract.2.1 stW "k" 60 1030 (by decide)).1,
   (C5_rate_limiter_contract.2.1 stW "k" 60 1030 (by decide)).2,
   C5_rate_limiter_contract.2.2.1 stW "k" 60 1090 (by decide)⟩

/-- C10: an allowed call that pushes the tracked-key list past
`max_keys` evicts the front (least-recently-allowed, since the list
stays sorted by last-allowed time) entry's timestamp while leaving
every other key's suppressed counter untouched; a key whose timestamp
is no longer tracked is allowed on its next call (for any real clock
value `≥ T`) and the returned count is its carried-over suppressed
counter. -/
theorem C10_lru_eviction :
    (∀ (s : RLState) (key : String) (T now : Int),
        ¬ now - lookupTime s.lastLogTime key < T →
        s.maxKeys < (s.lastLogTime.filter (fun p => p.1 != key) ++ [(key, now)]).length →
        (shouldLog s key T now).2.lastLogTime
          = (s.lastLogTime.filter (fun p => p.1 != key) ++ [(key, now)]).drop 1) ∧
    (∀ (s : RLState) (key k2 : String) (T now : Int), k2 ≠ key →
        (shouldLog s key T now).2.suppressed k2 = s.suppressed k2) ∧
    (∀ (s : RLState) (key : String) (T now : Int),
        s.lastLogTime.Pairwise (fun a b => a.2 ≤ b.2) →
        (∀ p ∈ s.lastLogTime, p.2 ≤ now) →
        (shouldLog s key T now).2.lastLogTime.Pairwise (fun a b => a.2 ≤ b.2)) ∧
    (∀ (s : RLState) (key : String) (T now : Int),
        s.lastLogTime.find? (fun p => p.1 == key) = none → T ≤ now →
        (shouldLog s key T now).1 = (true, s.suppressed key)) := by
  refine ⟨?_, ?_, ?_, ?_⟩
  · intro s key T now h hlen
    unfold shouldLog
    rw [if_neg h]
    simp only
    rw [if_pos hlen]
  · intro s key k2 T now hk
    rw [shouldLog_suppressed_point, if_neg hk]
  · intro s key T now hp hb
    unfold shouldLog
    by_cases h : now - lookupTime s.lastLogTime key < T
    · rw [if_pos h]
      exact hp
    · rw [if_neg h]
      simp only
      have hmoved :
          (s.lastLogTime.filter (fun p => p.1 != key)
            ++ [(key, now)]).Pairwise (fun a b => a.2 ≤ b.2) := by
        refine List.pairwise_append.mpr ⟨hp.filter _, List.pairwise_singleton _ _, ?_⟩
        intro a ha b hb'
        have hb'' : b = (key, now) := by simpa using hb'
        subst hb''
        exact hb a (List.mem_of_mem_filter ha)
      split
      · exact hmoved.sublist (List.drop_sublist _ _)
      · exact hmoved
  · intro s key T now hfind hT
    have hl : lookupTime s.lastLogTime key = 0 := by
      unfold lookupTime
      rw [hfind]
    unfold shouldLog
    rw [hl, if_neg (by omega)]

theorem C10_lru_eviction_witness :
    (shouldLog stEvict "c" 60 100).2.lastLogTime = [("b", 20), ("c", 100)]
    ∧ (shouldLog stEvict "c" 60 100).2.suppressed "a" = 3
    ∧ (shouldLog stEvict "c" 60 100).2.lastLogTime.Pairwise (fun a b => a.2 ≤ b.2)
    ∧ (shouldLog (shouldLog stEvict "c" 60 100).2 "a" 60 110).1
        = (true, (shouldLog stEvict "c" 60 100).2.suppressed "a")
    ∧ (shouldLog stEvict "c" 60 100).2.suppressed "a" = stEvict.suppressed "a" := by
  refine ⟨?_, ?_, ?_, ?_, ?_⟩
  · rw [C10_lru_eviction.1 stEvict "c" 60 100 (by decide) (by decide)]
    decide
  · rw [C10_lru_eviction.2.1 stEvict "c" "a" 60 100 (by decide)]
    decide
  · exact C10_lru_eviction.2.2.1 stEvict "c" 60 100 (by decide) (by decide)
  · exact C10_lru_eviction.2.2.2 _ "a" 60 110 (by decide) (by decide)
  · exact C10_lru_eviction.2.1 stEvict "c" "a" 60 100 (by decide)

/-! ## Backoff helper lemmas -/

theorem min_double_cap (c : Nat) (i : Nat) :
    min (min (c * 2) 30 * 2 ^ i) 30 = min (c * 2 * 2 ^ i) 30 := by
  rcases le_or_lt (c * 2) 30 with h | h
  · rw [min_eq_left h]
  · have h1 : (1 : Nat) ≤ 2 ^ i := Nat.one_le_two_pow
    have h30 : 30 ≤ 30 * 2 ^ i := Nat.le_mul_of_pos_right 30 (by omega)
    have hc : 30 ≤ c * 2 * 2 ^ i := by
      calc (30 : Nat) ≤ c * 2 := h.le
        _ ≤ c * 2 * 2 ^ i := Nat.le_mul_of_pos_right _ (by omega)
    rw [min_eq_right h.le, min_eq_right h30, min_eq_right hc]

theorem cgiDelays_exn_replicate :
    ∀ (n b : Nat), b ≤ 30 →
      cgiDelays b (List.replicate n CgiOutcome.exn)
        = (List.range n).map (fun i => min (b * 2 ^ i) 30) := by
  intro n
  induction n with
  | zero => intro b _; rfl
  | succ n ih =>
    intro b hb
    rw [List.replicate_succ, List.range_succ_eq_map]
    simp only [cgiDelays, stepBackoff, List.map_cons, List.map_map]
    rw [ih (min (b * 2) 30) (min_le_right _ _)]
    have hhead : min (b * 2 ^ 0) 30 = b := by
      simp [min_eq_left hb]
    rw [hhead]
    show b :: _ = b :: _
    congr 1
    apply List.map_congr_left
    intro i _
    simp only [Function.comp]
    rw [min_double_cap]
    congr 1
    rw [pow_succ]
    ring

/-- C4 fails on the code: on the trace "three failures, then HTTP 200
with zero accepted reads, then a failure" the loop sleeps
`[1, 2, 4, 1, 2]` — the 200-with-no-read attempt already reset the
backoff (`backoff = 1` runs on the status check alone, before any
read) — while the claimed policy (reset only after HTTP 200 plus at
least one accepted read) would sleep `[1, 2, 4, 8, 16]`. -/
theorem C4_counterexample :
    cgiDelays 1 c4trace = [1, 2, 4, 1, 2]
    ∧ specCgiDelays 1 c4trace = [1, 2, 4, 8, 16]
    ∧ cgiDelays 1 c4trace ≠ specCgiDelays 1 c4trace := by
  refine ⟨by decide, by decide, by decide⟩

/-- C4 (amended): from a fresh start, `n` consecutive failed attempts
sleep `1, 2, 4, 8, 16, 30, 30, …` (`min(2^i, 30)`); the backoff is
reset to 1 s exactly when an attempt receives HTTP 200 — regardless of
whether any read is then accepted — and the successful iteration
itself sleeps that reset 1 s before reconnecting (unless the stream
ended with a read timeout, which skips the sleep and leaves the
backoff at the reset value 1). -/
theorem C4_backoff_amended :
    (∀ n : Nat, cgiDelays 1 (List.replicate n CgiOutcome.exn)
        = (List.range n).map (fun i => min (2 ^ i) 30)) ∧
    (∀ (b reads : Nat), stepBackoff b (CgiOutcome.connected reads false) = ([1], 2)) ∧
    (∀ (b reads : Nat), stepBackoff b (CgiOutcome.connected reads true) = ([], 1)) ∧
    (∀ b : Nat, stepBackoff b CgiOutcome.exn = ([b], min (b * 2) 30)) := by
  refine ⟨?_, fun b reads => rfl, fun b reads => rfl, fun b => rfl⟩
  intro n
  rw [cgiDelays_exn_replicate n 1 (by omega)]
  apply List.map_congr_left
  intro i _
  rw [one_mul]

/-! ## Durable store: purge and enqueue -/

theorem purge_filter_mem {α : Type} [DecidableEq α] (tsOf : α → Int) (cutoff : Int)
    (l : List α) (r : α) :
    r ∈ l.filter (fun x => !decide (tsOf x < cutoff)) ↔ r ∈ l ∧ cutoff ≤ tsOf r := by
  rw [List.mem_filter]
  simp [not_lt]

theorem purge_filter_count {α : Type} (tsOf : α → Int) (cutoff : Int) (l : List α) :
    l.length - (l.filter (fun x => !decide (tsOf x < cutoff))).length
      = l.countP (fun x => decide (tsOf x < cutoff)) := by
  have h := List.length_eq_length_filter_add (l := l) (fun x => decide (tsOf x < cutoff))
  have hb : (l.filter fun x => !(fun y : α => decide (tsOf y < cutoff)) x)
      = l.filter (fun x => !decide (tsOf x < cutoff)) := rfl
  rw [hb] at h
  rw [List.countP_eq_length_filter]
  omega

/-- C8: purging with `retention_days` removes exactly the rows with
`ts_epoch < now - retention_days * 86400` from all three record tables,
keeps rows sitting exactly at the cutoff, and reports the total number
of removed rows. -/
theorem C8_purge_strict_cutoff :
    ∀ (now retentionDays : Int) (db : DB),
      (∀ r : DeltaRow, r ∈ (purge_old_events now retentionDays db).1.peopleDeltaEvents ↔
          r ∈ db.peopleDeltaEvents ∧ now - retentionDays * 86400 ≤ r.tsEpoch) ∧
      (∀ r : LogRow, r ∈ (purge_old_events now retentionDays db).1.eventLogs ↔
          r ∈ db.eventLogs ∧ now - retentionDays * 86400 ≤ r.tsEpoch) ∧
      (∀ r : LegacyRow, r ∈ (purge_old_events now retentionDays db).1.events ↔
          r ∈ db.events ∧ now - retentionDays * 86400 ≤ r.tsEpoch) ∧
      (∀ r : LogRow, r ∈ db.eventLogs → r.tsEpoch = now - retentionDays * 86400 →
          r ∈ (purge_old_events now retentionDays db).1.eventLogs) ∧
      ((purge_old_events now retentionDays db).2
        = db.peopleDeltaEvents.countP (fun r => decide (r.tsEpoch < now - retentionDays * 86400))
          + db.eventLogs.countP (fun r => decide (r.tsEpoch < now - retentionDays * 86400))
          + db.events.countP (fun r => decide (r.tsEpoch < now - retentionDays * 86400))) := by
  intro now retentionDays db
  have hcut : now - retentionDays * 24 * 3600 = now - retentionDays * 86400 := by ring
  refine ⟨?_, ?_, ?_, ?_, ?_⟩
  · intro r
    show r ∈ db.peopleDeltaEvents.filter _ ↔ _
    rw [purge_filter_mem (fun x : DeltaRow => x.tsEpoch), hcut]
  · intro r
    show r ∈ db.eventLogs.filter _ ↔ _
    rw [purge_filter_mem (fun x : LogRow => x.tsEpoch), hcut]
  · intro r
    show r ∈ db.events.filter _ ↔ _
    rw [purge_filter_mem (fun x : LegacyRow => x.tsEpoch), hcut]
  · intro r hr hts
    show r ∈ db.eventLogs.filter _
    rw [purge_filter_mem (fun x : LogRow => x.tsEpoch), hcut]
    exact ⟨hr, le_of_eq hts.symm⟩
  · show db.peopleDeltaEvents.length - _ + (db.eventLogs.length - _) + (db.events.length - _) = _
    rw [purge_filter_count (fun x : DeltaRow => x.tsEpoch),
        purge_filter_count (fun x : LogRow => x.tsEpoch),
        purge_filter_count (fun x : LegacyRow => x.tsEpoch), hcut]

theorem C8_purge_strict_cutoff_witness :
    logRowAtCutoff ∈ (purge_old_events 172800 1 db8).1.eventLogs
    ∧ (purge_old_events 172800 1 db8).2 = 3 := by
  constructor
  · exact (C8_purge_strict_cutoff 172800 1 db8).2.2.2.1 logRowAtCutoff (by decide) (by decide)
  · rw [(C8_purge_strict_cutoff 172800 1 db8).2.2.2.2]
    decide

/-- C9: when the writer worker runs, `enqueue_event` appends the event
to the FIFO and performs no write itself (the unbounded queue put does
not wait on the writer); when the worker is down it degrades to a
synchronous `insert_event` in the caller's context, so a well-formed
generic event still lands in `event_logs` rather than being dropped. -/
theorem C9_enqueue_no_drop :
    ∀ (parseTs : String → Option Int) (now : Int) (q : List EventData) (db : DB)
      (ev : EventData),
      (enqueue_event true parseTs now q db ev = (q ++ [ev], db)) ∧
      (enqueue_event false parseTs now q db ev = (q, insert_event parseTs now db ev)) ∧
      (∀ e : Int, ev.type ≠ "DEBUG" → ev.type ≠ "PEOPLE_COUNT" → ev.tsEpoch = some e →
        (enqueue_event false parseTs now q db ev).2.eventLogs
          = db.eventLogs ++ [⟨e, ev.cameraKey, ev.type, ev.areaId, ev.message⟩]) := by
  intro parseTs now q db ev
  refine ⟨rfl, rfl, ?_⟩
  intro e hdbg hpc hts
  show (insert_event parseTs now db ev).eventLogs = _
  unfold insert_event
  rw [if_neg hdbg, hts, if_neg hpc]

theorem C9_enqueue_no_drop_witness :
    (enqueue_event false noParse 1000 [] db0 evStay).2.eventLogs
      = db0.eventLogs ++ [⟨500, "cam1", "STAY_ALARM", some 2, "stay msg"⟩] :=
  (C9_enqueue_no_drop noParse 1000 [] db0 evStay).2.2 500
    (by decide) (by decide) (by decide)

/-! ## Rule engine helper lemmas -/

/-- With an established baseline `b`, `_handle_people_count` enqueues
exactly one event — carrying `prev_value`, the new `count` and the
signed `delta` — when `delta ≠ 0`, and nothing when `delta = 0`;
this holds in every GPIO/cooldown/closing branch. -/
theorem handle_enqueued_established (env : PCEnv) (s : PCState) (ev : EventData)
    (now : ℚ) (c b : Int) (hc : ev.count = some c) (h0 : ¬ c < 0)
    (hb : s.lastPeopleTotal ev.cameraKey ev.areaId = some b) :
    (handle_people_count env s ev now).2.enqueued
      = if c - b ≠ 0 then
          [{ ev with
              prevValue := some b
              count := some c
              delta := some (c - b)
              message :=
                if 0 < c - b then
                  s!"[{ev.cameraKey}] Area {fmtArea ev.areaId} People +{c - b} ({c})"
                else s!"[{ev.cameraKey}] Area {fmtArea ev.areaId} People {c - b} ({c})" }]
        else [] := by
  unfold handle_people_count
  simp only [hc, hb, h0, if_false]
  split_ifs <;> rfl

/-- `insert_event` on a `PEOPLE_COUNT` event with a known area, delta
and epoch: a `people_delta_events` row appears iff the delta is
positive; `event_logs` is never written. -/
theorem insert_event_people (parseTs : String → Option Int) (now : Int) (db : DB)
    (ev : EventData) (aid e d : Int) (htype : ev.type = "PEOPLE_COUNT")
    (harea : ev.areaId = some aid) (hdelta : ev.delta = some d)
    (hts : ev.tsEpoch = some e) :
    insert_event parseTs now db ev
      = if 0 < d then
          { db with peopleDeltaEvents := db.peopleDeltaEvents ++ [⟨e, ev.cameraKey, aid, d⟩] }
        else db := by
  unfold insert_event
  simp [htype, hts, harea, hdelta]

/-- Case form of `handle_enqueued_established` that leaves the
human-readable message abstract. -/
theorem handle_enqueued_established_cases (env : PCEnv) (s : PCState) (ev : EventData)
    (now : ℚ) (c b : Int) (hc : ev.count = some c) (h0 : ¬ c < 0)
    (hb : s.lastPeopleTotal ev.cameraKey ev.areaId = some b) :
    (c - b = 0 → (handle_people_count env s ev now).2.enqueued = []) ∧
    (c - b ≠ 0 → ∃ msg : String,
       (handle_people_count env s ev now).2.enqueued
         = [{ ev with
               prevValue := some b
               count := some c
               delta := some (c - b)
               message := msg }]) := by
  constructor
  · intro hz
    rw [handle_enqueued_established env s ev now c b hc h0 hb, if_neg (by omega)]
  · intro hnz
    rw [handle_enqueued_established env s ev now c b hc h0 hb, if_pos hnz]
    exact ⟨_, rfl⟩

/-- C1 fails on the code: with baseline 5 established for
`("cam1", area 2)`, a snapshot of count 3 (`delta = -2`) persists
nothing at all — `insert_event` routes `PEOPLE_COUNT` events only to
`people_delta_events` and only when `delta > 0`, so no generic
`event_logs` record is written; and a snapshot of count 8
(`delta = +3`) writes the delta row but again no generic record. -/
theorem C1_counterexample :
    (peopleCountPersisted noParse 1700000000 db0
        (handle_people_count env0 s5 (evCount 3) 100).2).eventLogs = []
    ∧ (peopleCountPersisted noParse 1700000000 db0
        (handle_people_count env0 s5 (evCount 3) 100).2).peopleDeltaEvents = []
    ∧ (handle_people_count env0 s5 (evCount 3) 100).2.enqueued ≠ []
    ∧ (peopleCountPersisted noParse 1700000000 db0
        (handle_people_count env0 s5 (evCount 8) 100).2).eventLogs = []
    ∧ (peopleCountPersisted noParse 1700000000 db0
        (handle_people_count env0 s5 (evCount 8) 100).2).peopleDeltaEvents
        = [⟨1700000000, "cam1", 2, 3⟩] := by
  refine ⟨by decide, by decide, by decide, by decide, by decide⟩

/-- C1 (amended): with an established baseline, `delta = 0` persists
nothing (nothing is even enqueued); `delta > 0` persists exactly one
delta record and no generic log record; `delta < 0` enqueues a generic
event but the writer persists nothing for it — `PEOPLE_COUNT` events
are only ever stored in the delta table and only when `delta > 0`. -/
theorem C1_people_count_persistence_amended (env : PCEnv) (s : PCState)
    (ev : EventData) (now : ℚ) (parseTs : String → Option Int) (nowEpoch : Int)
    (db : DB) (c b aid e : Int)
    (hc : ev.count = some c) (h0 : ¬ c < 0)
    (hb : s.lastPeopleTotal ev.cameraKey ev.areaId = some b)
    (htype : ev.type = "PEOPLE_COUNT") (harea : ev.areaId = some aid)
    (hts : ev.tsEpoch = some e) :
    (c - b = 0 →
       (handle_people_count env s ev now).2.enqueued = [] ∧
       peopleCountPersisted parseTs nowEpoch db (handle_people_count env s ev now).2 = db) ∧
    (0 < c - b →
       peopleCountPersisted parseTs nowEpoch db (handle_people_count env s ev now).2
         = { db with peopleDeltaEvents :=
               db.peopleDeltaEvents ++ [⟨e, ev.cameraKey, aid, c - b⟩] }) ∧
    (c - b < 0 →
       peopleCountPersisted parseTs nowEpoch db (handle_people_count env s ev now).2 = db) := by
  have henq := handle_enqueued_established_cases env s ev now c b hc h0 hb
  refine ⟨?_, ?_, ?_⟩
  · intro hz
    refine ⟨henq.1 hz, ?_⟩
    unfold peopleCountPersisted
    rw [henq.1 hz]
    rfl
  · intro hd
    obtain ⟨msg, hmsg⟩ := henq.2 (by omega)
    unfold peopleCountPersisted
    rw [hmsg, List.foldl_cons, List.foldl_nil,
        insert_event_people parseTs nowEpoch db
          { ev with
              prevValue := some b
              count := some c
              delta := some (c - b)
              message := msg } aid e (c - b) htype harea rfl hts,
        if_pos hd]
  · intro hd
    obtain ⟨msg, hmsg⟩ := henq.2 (by omega)
    unfold peopleCountPersisted
    rw [hmsg, List.foldl_cons, List.foldl_nil,
        insert_event_people parseTs nowEpoch db
          { ev with
              prevValue := some b
              count := some c
              delta := some (c - b)
              message := msg } aid e (c - b) htype harea rfl hts,
        if_neg (by omega)]

theorem C1_people_count_persistence_amended_witness :
    peopleCountPersisted noParse 1700000000 db0 (handle_people_count env0 s5 (evCount 8) 100).2
      = { db0 with peopleDeltaEvents := db0.peopleDeltaEvents ++ [⟨1700000000, "cam1", 2, 3⟩] } := by
  have h := (C1_people_count_persistence_amended env0 s5 (evCount 8) 100 noParse
    1700000000 db0 8 5 2 1700000000 (by decide) (by decide) (by decide)
    (by decide) (by decide) (by decide)).2.1 (by decide)
  exact h

/-- C2 fails on the code: with baseline 5 established for
`("cam1", area 2)` and the window closing, a snapshot of count 8
(`delta = +3 > 0`) returns from the GPIO guard before the final cache
update, leaving the stored baseline at 5 instead of 8. -/
theorem C2_counterexample :
    (handle_people_count envClosing s5 (evCount 8) 100).1.lastPeopleTotal "cam1" (some 2)
        = some 5
    ∧ ¬ (handle_people_count envClosing s5 (evCount 8) 100).1.lastPeopleTotal "cam1" (some 2)
        = some 8
    ∧ envClosing.closing = true := by
  have h : (handle_people_count envClosing s5 (evCount 8) 100).1.lastPeopleTotal
      "cam1" (some 2) = some 5 := by
    unfold handle_people_count
    norm_num [envClosing, env0, s5, evCount, setPT]
  exact ⟨h, by rw [h]; decide, by decide⟩

/-- C2 (amended): with an established baseline and `count ≥ 0`, the
stored baseline becomes the snapshot's count after processing — except
when `delta > 0` and the application is closing, in which case the
handler returns early and the baseline keeps its old value. -/
theorem C2_baseline_update_amended (env : PCEnv) (s : PCState) (ev : EventData)
    (now : ℚ) (c b : Int) (hc : ev.count = some c) (h0 : ¬ c < 0)
    (hb : s.lastPeopleTotal ev.cameraKey ev.areaId = some b) :
    (¬ (0 < c - b ∧ env.closing = true) →
       (handle_people_count env s ev now).1.lastPeopleTotal ev.cameraKey ev.areaId = some c) ∧
    (0 < c - b → env.closing = true →
       (handle_people_count env s ev now).1.lastPeopleTotal ev.cameraKey ev.areaId = some b) := by
  constructor
  · intro hng
    unfold handle_people_count
    simp only [hc, hb, h0, if_false]
    split_ifs <;> first
      | (exact absurd ⟨‹0 < c - b›, ‹env.closing = true›⟩ hng)
      | simp [setPT]
  · intro hd hcl
    unfold handle_people_count
    simp only [hc, hb, h0, if_false]
    split_ifs <;> exact hb

theorem C2_baseline_update_amended_witness :
    (handle_people_count env0 s5 (evCount 8) 100).1.lastPeopleTotal "cam1" (some 2) = some 8
    ∧ (handle_people_count envClosing s5 (evCount 8) 100).1.lastPeopleTotal "cam1" (some 2)
        = some 5 :=
  ⟨(C2_baseline_update_amended env0 s5 (evCount 8) 100 8 5 (by decide) (by decide)
      (by decide)).1 (by decide),
   (C2_baseline_update_amended envClosing s5 (evCount 8) 100 8 5 (by decide) (by decide)
      (by decide)).2 (by decide) (by decide)⟩

/-- C6 fails on the code in one detail: with the debug checkbox
enabled, the first snapshot for a fresh `("cam1", area 2)` does emit an
event-log line (`[DEBUG] … People Init … - Not saved to DB`), though
the claim promises no log line regardless of value. -/
theorem C6_counterexample :
    (handle_people_count envDebug sFresh (evCount 5) 100).2.eventLog
        = ["[DEBUG] [cam1] Area 2 People Init (5) - Not saved to DB"]
    ∧ (handle_people_count envDebug sFresh (evCount 5) 100).2.eventLog ≠ [] := by
  refine ⟨by decide, by decide⟩

/-- C6 (amended): the first snapshot for a fresh `(device, zone)` with
`count ≥ 0` only records the baseline: nothing is enqueued or
persisted, no GPIO pulse or GPIO log fires, the cooldown/debounce
timestamps, event counter and other zones' baselines are untouched,
and no event-log line is emitted unless the debug display is on (which
shows one diagnostic init line). -/
theorem C6_first_snapshot_amended (env : PCEnv) (s : PCState) (ev : EventData)
    (now : ℚ) (c : Int) (hc : ev.count = some c) (h0 : ¬ c < 0)
    (hb : s.lastPeopleTotal ev.cameraKey ev.areaId = none) :
    (handle_people_count env s ev now).1.lastPeopleTotal ev.cameraKey ev.areaId = some c
    ∧ (∀ (ck : String) (a : Option Int), ¬ (ck = ev.cameraKey ∧ a = ev.areaId) →
        (handle_people_count env s ev now).1.lastPeopleTotal ck a = s.lastPeopleTotal ck a)
    ∧ (handle_people_count env s ev now).2.enqueued = []
    ∧ (handle_people_count env s ev now).2.gpioTriggers = []
    ∧ (handle_people_count env s ev now).2.gpioLog = []
    ∧ (handle_people_count env s ev now).1.totalEvents = s.totalEvents
    ∧ (handle_people_count env s ev now).1.lastEventTimestamps = s.lastEventTimestamps
    ∧ (handle_people_count env s ev now).1.gpioLastTriggerTs = s.gpioLastTriggerTs
    ∧ (env.showDebug = false → (handle_people_count env s ev now).2.eventLog = [])
    ∧ (∀ (parseTs : String → Option Int) (nowEpoch : Int) (db : DB),
        peopleCountPersisted parseTs nowEpoch db (handle_people_count env s ev now).2 = db) := by
  refine ⟨?_, ?_, ?_, ?_, ?_, ?_, ?_, ?_, ?_, ?_⟩
  · unfold handle_people_count
    simp only [hc, hb, h0, if_false]
    simp [setPT]
  · intro ck a hne
    unfold handle_people_count
    simp only [hc, hb, h0, if_false, setPT]
    rw [if_neg hne]
  · unfold handle_people_count
    simp [hc, hb, h0, noPCEffects]
  · unfold handle_people_count
    simp [hc, hb, h0, noPCEffects]
  · unfold handle_people_count
    simp [hc, hb, h0, noPCEffects]
  · unfold handle_people_count
    simp [hc, hb, h0, noPCEffects]
  · unfold handle_people_count
    simp [hc, hb, h0, noPCEffects]
  · unfold handle_people_count
    simp [hc, hb, h0, noPCEffects]
  · intro hsd
    unfold handle_people_count
    simp [hc, hb, h0, hsd, noPCEffects]
  · intro parseTs nowEpoch db
    unfold peopleCountPersisted handle_people_count
    simp [hc, hb, h0, noPCEffects]

/-! ## Health sweep helper lemmas -/

theorem health_stay_part_restarts (st : HealthState) (d : DeviceThreads) (now : Int)
    (logs : List String) (restarts : List (String × String)) (restarted : Bool) :
    (health_stay_part st d now logs restarts restarted).2.restarts
      = restarts ++ (if d.hasStay ∧ d.stayRunning = false then [(d.key, "stay")] else []) := by
  unfold health_stay_part
  split_ifs <;> simp

theorem health_stay_part_logs_mono (st : HealthState) (d : DeviceThreads) (now : Int)
    (logs : List String) (restarts : List (String × String)) (restarted : Bool)
    (x : String) (hx : x ∈ logs) :
    x ∈ (health_stay_part st d now logs restarts restarted).2.logs := by
  unfold health_stay_part
  split_ifs <;> simp [hx]

/-- C3 fails on the code: with `cam1`'s connectivity unknown (no probe
recorded), a dead StayDetection (alarm-feed) thread is still
restarted by the sweep — the connectivity gate only protects the
PeopleCount (count-feed) thread. -/
theorem C3_counterexample :
    (check_event_thread_health hsUnknown devStayDead 1000).2.restarts = [("cam1", "stay")]
    ∧ hsUnknown.cameraConnStatus "cam1" = none := by
  refine ⟨by decide, by decide⟩

/-- C3 (amended): the sweep restarts the count-feed subscriber only
when the device's last-known connectivity probe is reachable, and logs
a rate-limited skip message when a dead count-feed thread is left
alone because connectivity is unknown or unreachable; the alarm-feed
subscriber, however, is restarted whenever it is dead and the
per-device cooldown has elapsed, regardless of connectivity (unless
the device pass was abandoned by the count-feed in-flight guard). -/
theorem C3_health_gate_amended (st : HealthState) (d : DeviceThreads) (now : Int) :
    ((d.key, "people") ∈ (check_event_thread_health st d now).2.restarts →
       (st.cameraConnStatus d.key).getD false = true) ∧
    (¬ now - st.lastRestartTimeEvent d.key < 60 →
     d.hasPeople = true → d.peopleRunning = false →
     (st.cameraConnStatus d.key).getD false = false →
       (d.key, "people") ∉ (check_event_thread_health st d now).2.restarts ∧
       ((shouldLog st.limiter ("health_pc_skip_disconnected_" ++ d.key) 3600 now).1.1 = true →
         s!"[Recovery] Skipping PeopleCount restart for {d.key} (Camera disconnected)"
           ∈ (check_event_thread_health st d now).2.logs)) ∧
    (¬ now - st.lastRestartTimeEvent d.key < 60 →
     d.hasStay = true → d.stayRunning = false →
     ¬ (d.hasPeople = true ∧ d.peopleRunning = false ∧
        (st.cameraConnStatus d.key).getD false = true ∧ st.pcRestartInflight d.key = true) →
       (d.key, "stay") ∈ (check_event_thread_health st d now).2.restarts) := by
  refine ⟨?_, ?_, ?_⟩
  · intro hmem
    unfold check_event_thread_health at hmem
    split_ifs at hmem with h1 h2 h3 h4
    · simp at hmem
    · simp at hmem
    · exact h3
    · rw [health_stay_part_restarts] at hmem
      simp at hmem
    · rw [health_stay_part_restarts] at hmem
      simp at hmem
  · intro h1 h2 h3 h4
    unfold check_event_thread_health
    rw [if_neg h1, if_pos ⟨h2, h3⟩, if_neg (by rw [h4]; exact Bool.false_ne_true)]
    constructor
    · rw [health_stay_part_restarts]
      simp
    · intro hallow
      apply health_stay_part_logs_mono
      rw [if_pos hallow]
      simp
  · intro h1 h2 h3 hng
    unfold check_event_thread_health
    rw [if_neg h1]
    by_cases hp : d.hasPeople = true ∧ d.peopleRunning = false
    · rw [if_pos hp]
      by_cases hcn : (st.cameraConnStatus d.key).getD false = true
      · rw [if_pos hcn]
        by_cases hin : st.pcRestartInflight d.key = true
        · exact absurd ⟨hp.1, hp.2, hcn, hin⟩ hng
        · rw [if_neg hin, health_stay_part_restarts]
          simp [h2, h3]
      · rw [if_neg hcn, health_stay_part_restarts]
        simp [h2, h3]
    · rw [if_neg hp, health_stay_part_restarts]
      simp [h2, h3]

theorem C3_health_gate_amended_witness :
    (hsConnected.cameraConnStatus "cam1").getD false = true
    ∧ ("cam1", "people") ∉ (check_event_thread_health hsUnknown devPeopleDead 10000).2.restarts
    ∧ "[Recovery] Skipping PeopleCount restart for cam1 (Camera disconnected)"
        ∈ (check_event_thread_health hsUnknown devPeopleDead 10000).2.logs
    ∧ ("cam1", "stay") ∈ (check_event_thread_health hsUnknown devStayDead 1000).2.restarts := by
  have hb := (C3_health_gate_amended hsUnknown devPeopleDead 10000).2.1
    (by decide) (by decide) (by decide) (by decide)
  refine ⟨(C3_health_gate_amended hsConnected devPeopleDead 1000).1 (by decide),
    hb.1, hb.2 (by decide),
    (C3_health_gate_amended hsUnknown devStayDead 1000).2.2
      (by decide) (by decide) (by decide) (by decide)⟩

/-! ## GPIO pulse controller -/

/-- C7: with GPIO enabled, present and connected and a positive pulse
duration — while a pulse is active (`now < pulseEndAt`), policy
`ignore` leaves the state untouched and policy `extend` moves
`pulseEndAt` to `now + duration` (strictly after the end set by an
earlier trigger); while idle, a trigger sets
`pulseEndAt = now + duration` and drives the output HIGH. -/
theorem C7_trigger_pulse_policies (conf : GpioConf) (s : GpioState) (now : ℚ)
    (hen : conf.enable = true) (hg : s.hasGpio = true) (hc : s.isConnected = true)
    (hdur : 0 < conf.pulseMs) :
    (now < s.pulseEndTime → conf.retriggerPolicy = "ignore" →
       trigger_pulse conf s now = (s, [])) ∧
    (now < s.pulseEndTime → conf.retriggerPolicy = "extend" →
       (trigger_pulse conf s now).1.pulseEndTime = now + conf.pulseMs / 1000 ∧
       (∀ t0 : ℚ, s.pulseEndTime = t0 + conf.pulseMs / 1000 → t0 < now →
          s.pulseEndTime < (trigger_pulse conf s now).1.pulseEndTime)) ∧
    (s.pulseEndTime ≤ now →
       (trigger_pulse conf s now).1.pulseEndTime = now + conf.pulseMs / 1000 ∧
       GpioAction.outputHigh ∈ (trigger_pulse conf s now).2) := by
  unfold trigger_pulse
  rw [hen, hg, hc]
  simp only [Bool.true_eq_false, if_false]
  refine ⟨?_, ?_, ?_⟩
  · intro hact hpol
    rw [if_pos hact, if_pos hpol]
  · intro hact hpol
    rw [if_pos hact, if_neg (by rw [hpol]; decide)]
    refine ⟨rfl, ?_⟩
    intro t0 hend ht0
    rw [hend]
    simp only
    exact add_lt_add_right ht0 _
  · intro hidle
    rw [if_neg (not_lt.mpr hidle)]
    exact ⟨rfl, List.mem_cons_self _ _⟩

theorem C7_trigger_pulse_policies_witness :
    (trigger_pulse conf7 st7 5).1.pulseEndTime = 5 + conf7.pulseMs / 1000
    ∧ GpioAction.outputHigh ∈ (trigger_pulse conf7 st7 5).2
    ∧ (trigger_pulse { conf7 with retriggerPolicy := "ignore" }
          { st7 with pulseEndTime := 6 } 5)
        = ({ st7 with pulseEndTime := 6 }, [])
    ∧ (trigger_pulse conf7 { st7 with pulseEndTime := 6 } 5).1.pulseEndTime
        = 5 + conf7.pulseMs / 1000 := by
  have h3 := (C7_trigger_pulse_policies conf7 st7 5 rfl rfl rfl
    (by norm_num [conf7])).2.2 (by norm_num [st7])
  have hig := (C7_trigger_pulse_policies { conf7 with retriggerPolicy := "ignore" }
    { st7 with pulseEndTime := 6 } 5 rfl rfl rfl (by norm_num [conf7])).1
    (by norm_num) rfl
  have hex := ((C7_trigger_pulse_policies conf7 { st7 with pulseEndTime := 6 } 5
    rfl rfl rfl (by norm_num [conf7])).2.1 (by norm_num) rfl).1
  exact ⟨h3.1, h3.2, hig, hex⟩

theorem C6_first_snapshot_amended_witness :
    (handle_people_count env0 sFresh (evCount 5) 100).1.lastPeopleTotal "cam1" (some 2)
        = some 5
    ∧ (handle_people_count env0 sFresh (evCount 5) 100).2.enqueued = []
    ∧ (handle_people_count env0 sFresh (evCount 5) 100).2.eventLog = []
    ∧ (handle_people_count env0 sFresh (evCount 5) 100).2.gpioTriggers = [] := by
  have h := C6_first_snapshot_amended env0 sFresh (evCount 5) 100 5
    (by decide) (by decide) (by decide)
  exact ⟨h.1, h.2.2.1, h.2.2.2.2.2.2.2.2.1 (by decide), h.2.2.2.1⟩

end PedCam
